import Mathlib

/-!
Verification of the freeciv-rs core: the tile terrain/transform state machine
(src/tiles/tile.rs) and the world generation pipeline and grid addressing
(src/world/generator.rs, src/world/world.rs, src/world/generator_perlin_simple.rs),
shallowly embedded in Lean.

Machine integers (`u8`, `usize`) are modelled as `Nat`; `f32`/`f64` scalar
fields are modelled as `Rat` values passed in as abstract inputs where the
source obtains them from the external noise/RNG crates; Rust panics
(out-of-bounds indexing, `unreachable!()`) are modelled as `Option.none`.
-/

namespace Freeciv

/-- The 13 terrain kinds of `src/tiles/tile.rs` (`enum Terrain`). -/
inductive Terrain where
  | DeepOcean
  | Desert
  | Forest
  | Glacier
  | Grassland
  | Hills
  | Jungle
  | Lake
  | Mountains
  | Ocean
  | Plains
  | Swamp
  | Tundra
deriving DecidableEq, Repr

/-- Source `Terrain::is_water`. -/
def Terrain.is_water : Terrain → Bool
  | .DeepOcean | .Ocean | .Lake => true
  | _ => false

/-- Source `enum Special`: at most one resource bonus per tile. -/
inductive Special where
  | none
  | Oasis
  | Oil
  | Pheasant
  | Silk
  | Ivory
  | Resources
  | Coal
  | Wine
  | Gems
  | Fruit
  | Fish
  | Gold
  | Iron
  | Whales
  | Buffalo
  | Wheat
  | Peat
  | Spice
  | Game
  | Furs
deriving DecidableEq, Repr

/-- The `bitflags! Flags: u16` bitset from the source, one `Bool` per bit. -/
structure Flags where
  hasRiver : Bool
  hasRoad : Bool
  hasIrrigation : Bool
  hasMine : Bool
  hasRailroad : Bool
  hasRuins : Bool
  hasPollution : Bool
  hasFort : Bool
  hasNuclearFallout : Bool
  hasHut : Bool
  hasFarmland : Bool
  hasCity : Bool
deriving DecidableEq, Repr

/-- Source `Flags::empty()`. -/
def Flags.empty : Flags :=
  ⟨false, false, false, false, false, false, false, false, false, false, false, false⟩

/-- Source `enum Transform`: the four transform kinds. -/
inductive Transform where
  | Irrigation
  | Mining
  | Road
  | Transforming
deriving DecidableEq, Repr

/-- Source `enum TransformOutcome`. -/
inductive TransformOutcome where
  | BuildIrrigation (turns : Nat)
  | BuildMine (turns : Nat)
  | BuildRoad (turns : Nat)
  | TransformTo (terrain : Terrain) (turns : Nat)
  | Impossible
deriving DecidableEq, Repr

/-- The Bool form of `matches!(o, TransformOutcome::BuildIrrigation(_))`. -/
def TransformOutcome.isBuildIrrigation : TransformOutcome → Bool
  | .BuildIrrigation _ => true
  | _ => false

/-- The Bool form of `matches!(o, TransformOutcome::BuildMine(_))`. -/
def TransformOutcome.isBuildMine : TransformOutcome → Bool
  | .BuildMine _ => true
  | _ => false

/-- The Bool form of `matches!(o, TransformOutcome::BuildRoad(_))`. -/
def TransformOutcome.isBuildRoad : TransformOutcome → Bool
  | .BuildRoad _ => true
  | _ => false

/-- The Bool form of `matches!(o, TransformOutcome::TransformTo(_, _))`. -/
def TransformOutcome.isTransformTo : TransformOutcome → Bool
  | .TransformTo _ _ => true
  | _ => false

/-- The Bool form of `matches!(o, TransformOutcome::Impossible)`. -/
def TransformOutcome.isImpossible : TransformOutcome → Bool
  | .Impossible => true
  | _ => false

/-- Source `Terrain::transform`: the terrain rule table, one outcome
per (terrain, transform kind) pair. -/
def Terrain.transform (self : Terrain) (t : Transform) : TransformOutcome :=
  match self with
  | .DeepOcean => .Impossible
  | .Desert =>
    match t with
    | .Irrigation => .BuildIrrigation 5
    | .Mining => .BuildMine 5
    | .Road => .BuildRoad 2
    | .Transforming => .TransformTo .Plains 24
  | .Forest =>
    match t with
    | .Irrigation => .TransformTo .Plains 5
    | .Mining => .TransformTo .Swamp 15
    | .Road => .BuildRoad 4
    | .Transforming => .TransformTo .Grassland 24
  | .Glacier =>
    match t with
    | .Irrigation => .Impossible
    | .Mining => .BuildMine 10
    | .Road => .BuildRoad 4
    | .Transforming => .TransformTo .Tundra 24
  | .Grassland =>
    match t with
    | .Irrigation => .BuildIrrigation 5
    | .Mining => .TransformTo .Forest 10
    | .Road => .BuildRoad 2
    | .Transforming => .TransformTo .Hills 24
  | .Hills =>
    match t with
    | .Irrigation => .BuildIrrigation 10
    | .Mining => .BuildMine 10
    | .Road => .BuildRoad 4
    | .Transforming => .TransformTo .Plains 24
  | .Jungle =>
    match t with
    | .Irrigation => .TransformTo .Grassland 15
    | .Mining => .TransformTo .Forest 15
    | .Road => .BuildRoad 4
    | .Transforming => .TransformTo .Plains 24
  | .Lake =>
    match t with
    | .Irrigation | .Mining | .Road => .Impossible
    | .Transforming => .TransformTo .Swamp 36
  | .Mountains =>
    match t with
    | .Irrigation => .Impossible
    | .Mining => .BuildMine 10
    | .Road => .BuildRoad 6
    | .Transforming => .TransformTo .Hills 24
  | .Ocean =>
    match t with
    | .Irrigation | .Mining | .Road => .Impossible
    | .Transforming => .TransformTo .Swamp 36
  | .Plains =>
    match t with
    | .Irrigation => .BuildIrrigation 5
    | .Mining => .TransformTo .Forest 15
    | .Road => .BuildRoad 2
    | .Transforming => .TransformTo .Grassland 24
  | .Swamp =>
    match t with
    | .Irrigation => .TransformTo .Grassland 15
    | .Mining => .TransformTo .Forest 15
    | .Road => .BuildRoad 4
    | .Transforming => .TransformTo .Ocean 36
  | .Tundra =>
    match t with
    | .Irrigation => .BuildIrrigation 5
    | .Mining => .Impossible
    | .Road => .BuildRoad 2
    | .Transforming => .TransformTo .Desert 24

/-- Source `Terrain::can_build_irrigation`. -/
def Terrain.can_build_irrigation (self : Terrain) : Bool :=
  (self.transform .Irrigation).isBuildIrrigation

/-- Source `Terrain::can_build_mine`. -/
def Terrain.can_build_mine (self : Terrain) : Bool :=
  (self.transform .Mining).isBuildMine

/-- Source `Terrain::can_build_road`. -/
def Terrain.can_build_road (self : Terrain) : Bool :=
  (self.transform .Road).isBuildRoad

/-- Source `enum TransformStatus`. -/
inductive TransformStatus where
  | Transforming (transform : Transform) (turns_remaining : Nat)
  | NotTransforming
deriving DecidableEq, Repr

/-- Source `enum TransformResult`: result of `Tile::start_transform`. -/
inductive TransformResult where
  | Possible (turns : Nat)
  | Impossible
deriving DecidableEq, Repr

/-- Source `struct Tile`. -/
structure Tile where
  terrain : Terrain
  special : Special
  flags : Flags
  transform_status : TransformStatus
deriving DecidableEq, Repr

/-- Source `Tile::new`. -/
def Tile.new (terrain : Terrain) (special : Special) (flags : Flags) : Tile :=
  ⟨terrain, special, flags, .NotTransforming⟩

/-- Source `Tile::start_transform`. The source mutates `self` and returns a
`TransformResult`; here the updated tile is returned alongside the result. -/
def Tile.start_transform (self : Tile) (t : Transform) : TransformResult × Tile :=
  match self.terrain.transform t with
  | .BuildIrrigation turns =>
    if self.flags.hasIrrigation then (.Impossible, self)
    else (.Possible turns,
      { self with transform_status := .Transforming t turns })
  | .BuildMine turns =>
    if self.flags.hasMine then (.Impossible, self)
    else (.Possible turns,
      { self with transform_status := .Transforming t turns })
  | .BuildRoad turns =>
    if self.flags.hasRoad then (.Impossible, self)
    else (.Possible turns,
      { self with transform_status := .Transforming t turns })
  | .Impossible => (.Impossible, self)
  | .TransformTo _ turns =>
    (.Possible turns,
      { self with transform_status := .Transforming t turns })

/-- Source `Tile::change_terrain`: set the terrain, always clear the special; on
Ocean clear all flags, otherwise drop each of the irrigation/mine/road flags
the new terrain cannot itself build (the remaining flags are untouched,
TODO-marked in the source). -/
def Tile.change_terrain (self : Tile) (terrain : Terrain) : Tile :=
  -- Special resources always disappear when terraforming.
  let self := { self with terrain := terrain, special := Special.none }
  -- On ocean, all flags are removed.
  if terrain = .Ocean then
    { self with flags := Flags.empty }
  else
    let f := self.flags
    let f := if (self.terrain.transform .Irrigation).isBuildIrrigation then f
      else { f with hasIrrigation := false }
    let f := if (self.terrain.transform .Mining).isBuildMine then f
      else { f with hasMine := false }
    let f := if (self.terrain.transform .Road).isBuildRoad then f
      else { f with hasRoad := false }
    { self with flags := f }

/-- Source `Tile::tick_transform`; `none` models the `unreachable!()` panic in the
`TransformOutcome::Impossible` arm. -/
def Tile.tick_transform (self : Tile) : Option Tile :=
  match self.transform_status with
  | .NotTransforming => some self
  | .Transforming t turns_remaining =>
    let turns_remaining := turns_remaining - 1
    if turns_remaining > 0 then
      some { self with transform_status := .Transforming t turns_remaining }
    else
      match self.terrain.transform t with
      | .BuildIrrigation _ =>
        some { self with
               transform_status := .NotTransforming
               flags := { self.flags with hasIrrigation := true } }
      | .BuildMine _ =>
        some { self with
               transform_status := .NotTransforming
               flags := { self.flags with hasMine := true } }
      | .BuildRoad _ =>
        some { self with
               transform_status := .NotTransforming
               flags := { self.flags with hasRoad := true } }
      | .Impossible => none
      | .TransformTo terrain _ =>
        some { (self.change_terrain terrain) with transform_status := .NotTransforming }

/-- Termination measure for `Tile::tick_until_transform_done`: one more than
the remaining turns of an ongoing transform. -/
def Tile.transformMeasure (self : Tile) : Nat :=
  match self.transform_status with
  | .NotTransforming => 0
  | .Transforming _ n => n + 1

/-- Source `Tile::tick_until_transform_done`: tick until not transforming. The
`while` loop terminates because `tick_transform` strictly decreases the
measure on any transforming tile, proven in the `decreasing_by` block. -/
def Tile.tick_until_transform_done (self : Tile) : Option Tile :=
  if h : self.transform_status = .NotTransforming then some self
  else
    match ht : self.tick_transform with
    | none => none
    | some t' => t'.tick_until_transform_done
termination_by self.transformMeasure
decreasing_by
  rcases hs : self.transform_status with ⟨tr, n⟩ | _
  · have hm : self.transformMeasure = n + 1 := by
      simp [Tile.transformMeasure, hs]
    unfold Tile.tick_transform at ht
    rw [hs] at ht
    simp only at ht
    rw [hm]
    split at ht
    · injection ht with ht
      subst ht
      simp only [Tile.transformMeasure]
      omega
    · split at ht <;>
        first
        | (injection ht with ht; subst ht
           simp only [Tile.transformMeasure]
           omega)
        | cases ht
  · exact absurd hs h

/-- Iterate `Tile::tick_transform` a fixed number of times. -/
def Tile.tickN : Nat → Tile → Option Tile
  | 0, t => some t
  | n + 1, t => t.tick_transform.bind (Tile.tickN n)

/-- Source `struct World` from `src/world/world.rs`. -/
structure World where
  width : Nat
  height : Nat
  grid : List (List Tile)
  wrapping_x : Bool
  wrapping_y : Bool
deriving DecidableEq

/-- Source `World::tile_at`. A returned `TileRef` is identified by its resolved
in-range `(x, y)` coordinate pair (the struct's `x` and `y` fields); `none`
models the absent-tile case. -/
def World.tile_at (self : World) (x y : Nat) : Option (Nat × Nat) :=
  match (if self.wrapping_x ∧ x ≥ self.width then some (x % self.width)
         else if x ≥ self.width then none
         else some x) with
  | none => none
  | some x =>
    match (if self.wrapping_y ∧ y ≥ self.height then some (y % self.height)
           else if y ≥ self.height then none
           else some y) with
    | none => none
    | some y => some (x, y)

/-- Source `World::tile_at_mut`: its coordinate resolution, byte for byte the same
as `World::tile_at`. -/
def World.tile_at_mut (self : World) (x y : Nat) : Option (Nat × Nat) :=
  match (if self.wrapping_x ∧ x ≥ self.width then some (x % self.width)
         else if x ≥ self.width then none
         else some x) with
  | none => none
  | some x =>
    match (if self.wrapping_y ∧ y ≥ self.height then some (y % self.height)
           else if y ≥ self.height then none
           else some y) with
    | none => none
    | some y => some (x, y)

/-- The flag that `Tile::start_transform` guards for a given transform kind:
`HAS_IRRIGATION` for `Irrigation`, `HAS_MINE` for `Mining`, `HAS_ROAD` for
`Road`; the `Transforming` kind guards no flag. -/
def matchingFlag : Transform → Flags → Bool
  | .Irrigation, f => f.hasIrrigation
  | .Mining, f => f.hasMine
  | .Road, f => f.hasRoad
  | .Transforming, _ => false

/-- Source `enum LandDistribution` from `src/world/generator.rs`. -/
inductive LandDistribution where
  | Spread
  | Continguous

/-- Source `struct Parameters` from `src/world/generator.rs`; `water_percentage`
(an `f32`) is modelled as a rational. -/
structure Parameters where
  width : Nat
  height : Nat
  wrapping_x : Bool
  wrapping_y : Bool
  water_percentage : Rat
  seed : Nat
  land_distribution : LandDistribution

/-- In-bounds grid read `grid[y][x]`; the default is never reached on the
in-range accesses the generator performs. -/
def tileAtD (g : List (List Tile)) (y x : Nat) : Tile :=
  (g.getD y []).getD x (Tile.new .Ocean .none Flags.empty)

/-- The height-band terrain classification of `generate` (strategy A). -/
def classifyHeight (v : Rat) : Terrain :=
  if v < mkRat 1 10 then .Ocean
  else if v < mkRat 2 10 then .Plains
  else if v < mkRat 3 10 then .Grassland
  else if v < mkRat 4 10 then .Hills
  else if v < mkRat 5 10 then .Forest
  else if v < mkRat 6 10 then .Swamp
  else if v < mkRat 7 10 then .Jungle
  else if v < mkRat 8 10 then .Mountains
  else .Desert

/-- The terrain-assignment pass of `generate` (strategy A): `height` rows of
`width` tiles are created as `Tile::new(Ocean, None, empty())` and each cell
then gets its terrain from the height map value `hm y x` (indexed row first,
like `height_map[y][x]`). -/
def terrainGrid (width height : Nat) (hm : Nat → Nat → Rat) : List (List Tile) :=
  (List.range height).map fun y =>
    (List.range width).map fun x =>
      { (Tile.new Terrain.Ocean Special.none Flags.empty) with
        terrain := classifyHeight (hm y x) }

/-- The cell traversal order of the generator passes: `y` outer over
`0..height`, `x` inner over `0..width`, as `(x, y)` pairs. -/
def gridCells (width height : Nat) : List (Nat × Nat) :=
  (List.range height).flatMap fun y => (List.range width).map fun x => (x, y)

/-- The local state of one flood-fill traversal in `generate` (strategy A):
the work queue (a `Vec` used as a stack), the *globally shared* `visited`
matrix (modelled as the set of visited coordinates), and the two counters. -/
structure FloodState where
  queue : List (Nat × Nat)
  visited : Finset (Nat × Nat)
  island_size : Nat
  ocean_size : Nat

/-- One neighbor push of the flood fill: enqueue, mark visited, and bump
`ocean_size`. -/
def pushCell (c : Nat × Nat) (s : FloodState) : FloodState :=
  { s with
    queue := c :: s.queue
    visited := insert c s.visited
    ocean_size := s.ocean_size + 1 }

/-- One guarded neighbor push of the flood fill: the source's
`if <bounds guard> && !visited[..] && world[..].terrain.is_water() { push }`
block, with the bounds guard passed in as `guard`. -/
def tryPush (guard : Prop) [Decidable guard] (c : Nat × Nat)
    (isW : Nat → Nat → Bool) (s : FloodState) : FloodState :=
  if guard ∧ c ∉ s.visited ∧ isW c.1 c.2 then pushCell c s else s

/-- The body of the flood-fill `while let Some((x, y)) = queue.pop()` loop:
count the popped cell into `island_size`, then conditionally push the four
orthogonal neighbors (bounds check, not yet visited, water). -/
def floodStep (width height : Nat) (isW : Nat → Nat → Bool) (x y : Nat)
    (s : FloodState) : FloodState :=
  tryPush (y < height - 1) (x, y + 1) isW
    (tryPush (0 < y) (x, y - 1) isW
      (tryPush (x < width - 1) (x + 1, y) isW
        (tryPush (0 < x) (x - 1, y) isW
          { s with island_size := s.island_size + 1 })))

/-- The flood-fill loop, fuel-indexed so that it stays executable; the fuel
`floodFuel` is proven sufficient for the loop to drain its queue. -/
def floodLoop (width height : Nat) (isW : Nat → Nat → Bool) :
    Nat → FloodState → FloodState
  | 0, s => s
  | fuel + 1, s =>
    match s.queue with
    | [] => s
    | (x, y) :: rest =>
      floodLoop width height isW fuel
        (floodStep width height isW x y { s with queue := rest })

/-- Fuel bound for `floodLoop`, an upper bound of the loop measure
`5 * (unvisited cells) + queue length`. -/
def floodFuel (width height : Nat) : Nat := 5 * (width * height) + 1

/-- The small-component rewrite of `generate` (strategy A): set the terrain
of every visited cell (`for y, for x: if visited[y][x] { terrain = Ocean }`)
to Ocean. -/
def setVisitedOcean (vis : Finset (Nat × Nat)) (g : List (List Tile)) :
    List (List Tile) :=
  g.enum.map fun yr =>
    yr.2.enum.map fun xt =>
      if (xt.1, yr.1) ∈ vis then { xt.2 with terrain := Terrain.Ocean } else xt.2

/-- The scan of the flood-fill consolidation pass, cell by cell in traversal
order, threading the globally shared `visited` set and the grid: at each
unvisited water cell run a flood fill seeded there (seed marked visited,
`island_size = 0`, `ocean_size = 1`), then rewrite every visited cell to
Ocean when `island_size < ocean_size`. -/
def floodFillGo (width height : Nat) :
    List (Nat × Nat) → Finset (Nat × Nat) → List (List Tile) → List (List Tile)
  | [], _, g => g
  | c :: cs, visited, g =>
    if c ∉ visited ∧ (tileAtD g c.2 c.1).terrain.is_water then
      let s := floodLoop width height
        (fun x y => (tileAtD g y x).terrain.is_water)
        (floodFuel width height)
        { queue := [c], visited := insert c visited
          island_size := 0, ocean_size := 1 }
      if s.island_size < s.ocean_size then
        floodFillGo width height cs s.visited (setVisitedOcean s.visited g)
      else
        floodFillGo width height cs s.visited g
    else
      floodFillGo width height cs visited g

/-- The flood-fill consolidation pass of `generate` (strategy A). -/
def floodFillPass (width height : Nat) (g0 : List (List Tile)) :
    List (List Tile) :=
  floodFillGo width height (gridCells width height) ∅ g0

/-- The loop measure of the flood fill over a `width × height` grid:
`5 * (number of unvisited cells) + queue length`; each loop iteration
strictly decreases it. -/
def stateMeasure (width height : Nat) (s : FloodState) : Nat :=
  5 * (width * height - s.visited.card) + s.queue.length

/-- Well-formedness of a flood-fill state over a `width × height` grid:
every queued coordinate and every visited coordinate is in range. -/
def FloodOk (width height : Nat) (s : FloodState) : Prop :=
  (∀ c ∈ s.queue, c.1 < width ∧ c.2 < height) ∧
  s.visited ⊆ Finset.range width ×ˢ Finset.range height

/-- The in-place terrain write `world[r][c].terrain = terr`; `none` models
the Rust index-out-of-bounds panic. -/
def setTerrainAt (g : List (List Tile)) (r c : Nat) (terr : Terrain) :
    Option (List (List Tile)) :=
  if r < g.length then
    let row := g.getD r []
    if c < row.length then
      some (g.set r (row.set c
        { (row.getD c (Tile.new .Ocean .none Flags.empty)) with terrain := terr }))
    else none
  else none

/-- One cell of the feature-overlay pass of `generate` (strategy A). The
source reads `world[y][x].terrain` but writes `world[x][y].terrain` in the
three Forest-injection arms, and `world[y][x].terrain` in the Forest-to-Swamp
arm; both are kept exactly as written. -/
def overlayCell (width height : Nat) (fm : Nat → Nat → Rat)
    (g : List (List Tile)) (c : Nat × Nat) : Option (List (List Tile)) :=
  let x := c.1
  let y := c.2
  let terrain_type := (tileAtD g y x).terrain
  let feature_value := fm y x
  match terrain_type with
  | .Ocean | .Swamp =>
    if feature_value > mkRat 3 10 then setTerrainAt g x y .Forest else some g
  | .Desert | .Plains | .Grassland =>
    if feature_value > mkRat 5 10 then setTerrainAt g x y .Forest else some g
  | .Hills | .Jungle | .Mountains =>
    if feature_value > mkRat 4 10 then setTerrainAt g x y .Forest else some g
  | .Forest =>
    if feature_value > mkRat 5 10 then
      let adjacent_types :=
        (if 0 < x then [(tileAtD g y (x - 1)).terrain] else []) ++
        (if x < width - 1 then [(tileAtD g y (x + 1)).terrain] else []) ++
        (if 0 < y then [(tileAtD g (y - 1) x).terrain] else []) ++
        (if y < height - 1 then [(tileAtD g (y + 1) x).terrain] else [])
      if adjacent_types.any (fun t => t.is_water) then setTerrainAt g y x .Swamp
      else some g
    else some g
  | _ => some g

/-- The feature-overlay pass of `generate` (strategy A), over all cells in
traversal order, threading the in-place grid mutation (and any panic). -/
def overlayPass (width height : Nat) (fm : Nat → Nat → Rat)
    (g0 : List (List Tile)) : Option (List (List Tile)) :=
  (gridCells width height).foldlM (overlayCell width height fm) g0

/-- Source `generate` from `src/world/generator.rs` (strategy A). The two
octave-summed, min-max-normalized noise fields are external floating-point
computations of the noise crate (and the island injection additionally draws
from a process-entropy RNG), so they enter the model as the abstract scalar
fields `hm` (height map after normalization and island injection) and `fm`
(feature map), both indexed row first like `height_map[y][x]`. A Rust panic
anywhere in the pipeline surfaces as `none`. -/
def generate (p : Parameters) (hm fm : Nat → Nat → Rat) : Option World :=
  let g := terrainGrid p.width p.height hm
  let g := floodFillPass p.width p.height g
  (overlayPass p.width p.height fm g).map fun g =>
    { width := p.width, height := p.height, grid := g
      wrapping_x := p.wrapping_x, wrapping_y := p.wrapping_y }

/-- The water recount of `generate` in
`src/world/generator_perlin_simple.rs` (strategy B): the number of cells
`(x, y)` with `heights[x][y] < water_threshold`. -/
def countWater (width height : Nat) (hs : Nat → Nat → Rat) (t : Rat) : Nat :=
  ((gridCells width height).filter fun c => hs c.1 c.2 < t).length

/-- The threshold-adjustment `while diff.abs() > 0.001` loop of `generate`
in `src/world/generator_perlin_simple.rs` (strategy B). The grid writes
inside the loop do not feed back into the loop control, which depends only
on the recounted `water_count`. The source loop carries no iteration cap;
the fuel index makes the loop executable, and `none` means the loop is
still running after `fuel` further iterations. -/
def adjustLoop (width height : Nat) (hs : Nat → Nat → Rat) (target : Rat) :
    Nat → Rat → Option Rat
  | fuel, water_threshold =>
    let water_count := countWater width height hs water_threshold
    let diff := |((water_count : Rat) / ((width * height : Nat) : Rat)) - target|
    if diff > 1/1000 then
      match fuel with
      | 0 => none
      | fuel + 1 =>
        adjustLoop width height hs target fuel
          (if diff > 0 then water_threshold + 1/10000 else water_threshold - 1/10000)
    else some water_threshold

/-- A concrete normalized 2×2 height field for exercising strategy B,
indexed like `heights[x][y]`: values 0, 1/100 at x = 0 and 2/100, 1 at
x = 1 (min 0 and max 1, as min-max normalization produces). -/
def heightsB : Nat → Nat → Rat := fun x y =>
  if x = 0 then (if y = 0 then 0 else 1/100)
  else (if y = 0 then 2/100 else 1)

/-- C2 counterexample: a Forest tile already carrying `HAS_IRRIGATION` gets
`Possible{turns: 5}` from `start_transform(Irrigation)`, not `Impossible`:
Forest's Irrigation table entry is `TransformTo(Plains, 5)` and the flag
guard only runs on `BuildFlag` entries. -/
theorem start_transform_irrigated_forest_possible :
    (Tile.start_transform
      ⟨.Forest, .none,
       ⟨false, false, true, false, false, false, false, false, false, false, false, false⟩,
       .NotTransforming⟩ .Irrigation).1 = .Possible 5 ∧
    (TransformResult.Possible 5 ≠ .Impossible) := by
  decide

/-- C2 (amended): on a tile whose flags already contain the flag matching
the requested kind (`HAS_IRRIGATION`/`HAS_MINE`/`HAS_ROAD`), and whose
terrain's table entry for that kind is not a `TransformTo` outcome,
`start_transform` returns `Impossible` and leaves the tile unchanged. -/
theorem start_transform_existing_flag_impossible (t : Tile) (tr : Transform)
    (hflag : matchingFlag tr t.flags = true)
    (hnt : (t.terrain.transform tr).isTransformTo = false) :
    t.start_transform tr = (.Impossible, t) := by
  obtain ⟨terr, sp, fl, st⟩ := t
  cases tr <;> cases terr <;>
    simp_all [Tile.start_transform, Terrain.transform, matchingFlag,
      TransformOutcome.isTransformTo]

/-- Witness for C2's amended theorem at a concrete input: Desert with
`HAS_IRRIGATION` set. -/
theorem start_transform_existing_flag_impossible_witness :
    Tile.start_transform
      ⟨.Desert, .none,
       ⟨false, false, true, false, false, false, false, false, false, false, false, false⟩,
       .NotTransforming⟩ .Irrigation =
    (.Impossible,
     ⟨.Desert, .none,
      ⟨false, false, true, false, false, false, false, false, false, false, false, false⟩,
      .NotTransforming⟩) :=
  start_transform_existing_flag_impossible _ _ (by decide) (by decide)

/-- C3: changing any tile's terrain to Ocean through the terrain-change
cascade leaves empty flags and no special, whatever the starting terrain,
flags and special were. -/
theorem change_terrain_ocean_clears (t : Tile) :
    (t.change_terrain .Ocean).flags = Flags.empty ∧
    (t.change_terrain .Ocean).special = .none := by
  simp [Tile.change_terrain]

/-- C4: for a non-Ocean new terrain the cascade clears the special, keeps
each of the irrigation/mine/road flags exactly when the new terrain's rule
table has the corresponding `BuildFlag` entry for the matching kind, and
leaves the nine other flags unchanged. -/
theorem change_terrain_nonocean_cascade (t : Tile) (nt : Terrain)
    (h : nt ≠ .Ocean) :
    (t.change_terrain nt).terrain = nt ∧
    (t.change_terrain nt).special = .none ∧
    (t.change_terrain nt).flags.hasIrrigation
      = (t.flags.hasIrrigation && nt.can_build_irrigation) ∧
    (t.change_terrain nt).flags.hasMine
      = (t.flags.hasMine && nt.can_build_mine) ∧
    (t.change_terrain nt).flags.hasRoad
      = (t.flags.hasRoad && nt.can_build_road) ∧
    (t.change_terrain nt).flags.hasRiver = t.flags.hasRiver ∧
    (t.change_terrain nt).flags.hasRailroad = t.flags.hasRailroad ∧
    (t.change_terrain nt).flags.hasRuins = t.flags.hasRuins ∧
    (t.change_terrain nt).flags.hasPollution = t.flags.hasPollution ∧
    (t.change_terrain nt).flags.hasFort = t.flags.hasFort ∧
    (t.change_terrain nt).flags.hasNuclearFallout = t.flags.hasNuclearFallout ∧
    (t.change_terrain nt).flags.hasHut = t.flags.hasHut ∧
    (t.change_terrain nt).flags.hasFarmland = t.flags.hasFarmland ∧
    (t.change_terrain nt).flags.hasCity = t.flags.hasCity := by
  cases nt <;>
    simp_all [Tile.change_terrain, Terrain.can_build_irrigation,
      Terrain.can_build_mine, Terrain.can_build_road, Terrain.transform,
      TransformOutcome.isBuildIrrigation, TransformOutcome.isBuildMine,
      TransformOutcome.isBuildRoad]

/-- Witness for C4 at a concrete input: Plains tile with every flag set,
retargeted to Forest (which can build roads but neither irrigation nor
mines). -/
theorem change_terrain_nonocean_cascade_witness :
    ((⟨.Plains, .Coal,
      ⟨true, true, true, true, true, true, true, true, true, true, true, true⟩,
      .NotTransforming⟩ : Tile).change_terrain .Forest).terrain = .Forest ∧
    ((⟨.Plains, .Coal,
      ⟨true, true, true, true, true, true, true, true, true, true, true, true⟩,
      .NotTransforming⟩ : Tile).change_terrain .Forest).special = .none ∧
    ((⟨.Plains, .Coal,
      ⟨true, true, true, true, true, true, true, true, true, true, true, true⟩,
      .NotTransforming⟩ : Tile).change_terrain .Forest).flags.hasIrrigation
      = (true && Terrain.can_build_irrigation .Forest) ∧
    ((⟨.Plains, .Coal,
      ⟨true, true, true, true, true, true, true, true, true, true, true, true⟩,
      .NotTransforming⟩ : Tile).change_terrain .Forest).flags.hasMine
      = (true && Terrain.can_build_mine .Forest) ∧
    ((⟨.Plains, .Coal,
      ⟨true, true, true, true, true, true, true, true, true, true, true, true⟩,
      .NotTransforming⟩ : Tile).change_terrain .Forest).flags.hasRoad
      = (true && Terrain.can_build_road .Forest) ∧
    ((⟨.Plains, .Coal,
      ⟨true, true, true, true, true, true, true, true, true, true, true, true⟩,
      .NotTransforming⟩ : Tile).change_terrain .Forest).flags.hasRiver = true ∧
    ((⟨.Plains, .Coal,
      ⟨true, true, true, true, true, true, true, true, true, true, true, true⟩,
      .NotTransforming⟩ : Tile).change_terrain .Forest).flags.hasRailroad = true ∧
    ((⟨.Plains, .Coal,
      ⟨true, true, true, true, true, true, true, true, true, true, true, true⟩,
      .NotTransforming⟩ : Tile).change_terrain .Forest).flags.hasRuins = true ∧
    ((⟨.Plains, .Coal,
      ⟨true, true, true, true, true, true, true, true, true, true, true, true⟩,
      .NotTransforming⟩ : Tile).change_terrain .Forest).flags.hasPollution = true ∧
    ((⟨.Plains, .Coal,
      ⟨true, true, true, true, true, true, true, true, true, true, true, true⟩,
      .NotTransforming⟩ : Tile).change_terrain .Forest).flags.hasFort = true ∧
    ((⟨.Plains, .Coal,
      ⟨true, true, true, true, true, true, true, true, true, true, true, true⟩,
      .NotTransforming⟩ : Tile).change_terrain .Forest).flags.hasNuclearFallout = true ∧
    ((⟨.Plains, .Coal,
      ⟨true, true, true, true, true, true, true, true, true, true, true, true⟩,
      .NotTransforming⟩ : Tile).change_terrain .Forest).flags.hasHut = true ∧
    ((⟨.Plains, .Coal,
      ⟨true, true, true, true, true, true, true, true, true, true, true, true⟩,
      .NotTransforming⟩ : Tile).change_terrain .Forest).flags.hasFarmland = true ∧
    ((⟨.Plains, .Coal,
      ⟨true, true, true, true, true, true, true, true, true, true, true, true⟩,
      .NotTransforming⟩ : Tile).change_terrain .Forest).flags.hasCity = true :=
  change_terrain_nonocean_cascade
    ⟨.Plains, .Coal,
     ⟨true, true, true, true, true, true, true, true, true, true, true, true⟩,
     .NotTransforming⟩ .Forest (by decide)

/-- C5: the Hills mining scenario. `start_transform(Mining)` on a bare Hills
tile returns `Possible{turns: 10}` and changes only the transform status;
after 9 ticks the tile is still transforming with `HAS_MINE` unset; the 10th
tick completes: `NotTransforming`, `HAS_MINE` set, terrain still Hills. -/
theorem hills_mining_scenario :
    Tile.start_transform ⟨.Hills, .none, Flags.empty, .NotTransforming⟩ .Mining
      = (.Possible 10, ⟨.Hills, .none, Flags.empty, .Transforming .Mining 10⟩) ∧
    Tile.tickN 9 ⟨.Hills, .none, Flags.empty, .Transforming .Mining 10⟩
      = some ⟨.Hills, .none, Flags.empty, .Transforming .Mining 1⟩ ∧
    Flags.empty.hasMine = false ∧
    Tile.tick_transform ⟨.Hills, .none, Flags.empty, .Transforming .Mining 1⟩
      = some ⟨.Hills, .none,
        ⟨false, false, false, true, false, false, false, false, false, false, false, false⟩,
        .NotTransforming⟩ := by
  decide

/-- C7: grid addressing. With `0 < width` and a valid row `y`: on a wrapping
x-axis `tile_at` resolves the x-coordinate modulo the width (in particular
`tile_at(width, y) = tile_at(0, y)`); on a non-wrapping x-axis
`tile_at(width, y)` is absent; and `tile_at_mut` resolves identically to
`tile_at` everywhere. -/
theorem tile_at_wrapping_semantics (w : World) (y : Nat)
    (hw : 0 < w.width) (hy : y < w.height) :
    (w.wrapping_x = true →
      (∀ x, w.tile_at x y = w.tile_at (x % w.width) y) ∧
      w.tile_at w.width y = w.tile_at 0 y) ∧
    (w.wrapping_x = false → w.tile_at w.width y = none) ∧
    (∀ a b, w.tile_at_mut a b = w.tile_at a b) := by
  refine ⟨fun hwrap => ?_, fun hwrap => ?_, fun a b => rfl⟩
  · have hmod : ∀ x, w.tile_at x y = w.tile_at (x % w.width) y := by
      intro x
      by_cases hx : x ≥ w.width
      · have h1 : x % w.width < w.width := Nat.mod_lt _ hw
        unfold World.tile_at
        have e1 : (if w.wrapping_x ∧ x ≥ w.width then some (x % w.width)
            else if x ≥ w.width then none else some x) = some (x % w.width) := by
          rw [if_pos ⟨hwrap, hx⟩]
        have e2 : (if w.wrapping_x ∧ x % w.width ≥ w.width then
              some (x % w.width % w.width)
            else if x % w.width ≥ w.width then none
            else some (x % w.width)) = some (x % w.width) := by
          rw [if_neg (fun hc => absurd hc.2 (by omega)), if_neg (by omega)]
        rw [e1, e2]
      · rw [Nat.mod_eq_of_lt (by omega)]
    exact ⟨hmod, by rw [hmod w.width, Nat.mod_self]⟩
  · unfold World.tile_at
    have e1 : (if w.wrapping_x ∧ w.width ≥ w.width then some (w.width % w.width)
        else if w.width ≥ w.width then none else some w.width) = none := by
      rw [if_neg (fun hc => by simp [hwrap] at hc), if_pos (le_refl _)]
    rw [e1]

/-- The function `tick_transform` is a no-op on a tile that is not transforming. -/
theorem tick_notTransforming (t : Tile)
    (h : t.transform_status = .NotTransforming) :
    t.tick_transform = some t := by
  unfold Tile.tick_transform
  rw [h]

/-- Ticking with more than one turn remaining only decrements the
counter. -/
theorem tick_transforming_step (t : Tile) (tr : Transform) (m : Nat)
    (hm : 1 < m) (h : t.transform_status = .Transforming tr m) :
    t.tick_transform
      = some { t with transform_status := .Transforming tr (m - 1) } := by
  unfold Tile.tick_transform
  rw [h]
  simp only
  rw [if_pos (by omega)]

/-- Ticking on the final turn completes the transform and leaves
the tile not transforming (given the stored kind is applicable, ruling out
the `unreachable!()` arm). -/
theorem tick_transforming_one (t : Tile) (tr : Transform)
    (h : t.transform_status = .Transforming tr 1)
    (him : (t.terrain.transform tr).isImpossible = false) :
    ∃ t', t.tick_transform = some t' ∧
      t'.transform_status = .NotTransforming := by
  unfold Tile.tick_transform
  rw [h]
  simp only
  rw [if_neg (by omega)]
  cases ho : t.terrain.transform tr <;>
    first
    | exact ⟨_, rfl, rfl⟩
    | (rw [ho] at him
       simp [TransformOutcome.isImpossible] at him)

/-- One unfolding of the `tick_until_transform_done` loop on a transforming
tile. -/
theorem tick_until_eq_step (t t1 : Tile)
    (h : t.transform_status ≠ .NotTransforming)
    (ht : t.tick_transform = some t1) :
    t.tick_until_transform_done = t1.tick_until_transform_done := by
  rw [Tile.tick_until_transform_done]
  rw [dif_neg h]
  split
  · next heq =>
      rw [ht] at heq
      cases heq
  · next t2 heq =>
      rw [ht] at heq
      injection heq with heq
      rw [heq]

/-- The loop `tick_until_transform_done` returns immediately on a non-transforming
tile. -/
theorem tick_until_notTransforming (t : Tile)
    (h : t.transform_status = .NotTransforming) :
    t.tick_until_transform_done = some t := by
  rw [Tile.tick_until_transform_done]
  rw [dif_pos h]

/-- Core induction for C6: a tile transforming with `n > 0` turns remaining
(and an applicable stored kind) completes in exactly `n` ticks, and
`tick_until_transform_done` returns that completed tile. -/
theorem tickN_transforming_aux :
    ∀ n, 0 < n → ∀ (t : Tile) (tr : Transform),
    t.transform_status = .Transforming tr n →
    (t.terrain.transform tr).isImpossible = false →
    ∃ t', Tile.tickN n t = some t' ∧ t'.transform_status = .NotTransforming ∧
      t.tick_until_transform_done = some t' ∧
      ∀ m, m < n → ∃ tm, Tile.tickN m t = some tm ∧
        tm.transform_status ≠ .NotTransforming := by
  intro n
  induction n with
  | zero => intro h0; exact absurd h0 (lt_irrefl 0)
  | succ n ih =>
    intro _ t tr hst him
    have hne : t.transform_status ≠ .NotTransforming := by
      rw [hst]
      simp
    by_cases hn : n = 0
    · subst hn
      obtain ⟨t', h1, h2⟩ := tick_transforming_one t tr hst him
      refine ⟨t', ?_, h2, ?_, ?_⟩
      · simp [Tile.tickN, h1]
      · rw [tick_until_eq_step t t' hne h1, tick_until_notTransforming t' h2]
      · intro m hm
        have hm0 : m = 0 := by omega
        subst hm0
        refine ⟨t, rfl, ?_⟩
        rw [hst]
        simp
    · have hstep := tick_transforming_step t tr (n + 1) (by omega) hst
      have hn1 : n + 1 - 1 = n := by omega
      rw [hn1] at hstep
      obtain ⟨t', ha, hb, hc, hd⟩ :=
        ih (by omega) { t with transform_status := .Transforming tr n } tr rfl him
      refine ⟨t', ?_, hb, ?_, ?_⟩
      · show Tile.tickN (n + 1) t = some t'
        simp only [Tile.tickN, hstep, Option.bind_some]
        exact ha
      · rw [tick_until_eq_step t _ hne hstep]
        exact hc
      · intro m hm
        cases m with
        | zero =>
          refine ⟨t, rfl, ?_⟩
          rw [hst]
          simp
        | succ k =>
          obtain ⟨tm, h1, h2⟩ := hd k (by omega)
          refine ⟨tm, ?_, h2⟩
          simp only [Tile.tickN, hstep, Option.bind_some]
          exact h1

/-- C6: from any transforming state with `n > 0` turns remaining whose
stored kind is applicable to the tile's terrain (as every state reachable
through `start_transform` is), exactly `n` calls to `tick_transform` reach
`NotTransforming` — fewer than `n` never do — and
`tick_until_transform_done` terminates with that tile; moreover
`tick_transform` on a non-transforming tile is a no-op. -/
theorem tick_until_done_exact (t : Tile) (tr : Transform) (n : Nat)
    (hst : t.transform_status = .Transforming tr n) (hn : 0 < n)
    (him : (t.terrain.transform tr).isImpossible = false) :
    (∃ t', Tile.tickN n t = some t' ∧ t'.transform_status = .NotTransforming ∧
      t.tick_until_transform_done = some t') ∧
    (∀ m, m < n → ∃ tm, Tile.tickN m t = some tm ∧
      tm.transform_status ≠ .NotTransforming) ∧
    (∀ s : Tile, s.transform_status = .NotTransforming →
      s.tick_transform = some s) := by
  obtain ⟨t', h1, h2, h3, h4⟩ := tickN_transforming_aux n hn t tr hst him
  exact ⟨⟨t', h1, h2, h3⟩, h4, fun s hs => tick_notTransforming s hs⟩

/-- Witness for C6 at a concrete input: a Desert tile two turns away from
finishing a road. -/
theorem tick_until_done_exact_witness :
    (∃ t', Tile.tickN 2 ⟨.Desert, .none, Flags.empty, .Transforming .Road 2⟩
        = some t' ∧
      t'.transform_status = .NotTransforming ∧
      (⟨.Desert, .none, Flags.empty,
        .Transforming .Road 2⟩ : Tile).tick_until_transform_done = some t') ∧
    (∀ m, m < 2 → ∃ tm,
      Tile.tickN m ⟨.Desert, .none, Flags.empty, .Transforming .Road 2⟩
        = some tm ∧
      tm.transform_status ≠ .NotTransforming) ∧
    (∀ s : Tile, s.transform_status = .NotTransforming →
      s.tick_transform = some s) :=
  tick_until_done_exact ⟨.Desert, .none, Flags.empty, .Transforming .Road 2⟩
    .Road 2 rfl (by decide) (by decide)

/-- Witness for C7 at a concrete world (width 3, height 2, wrapping x-axis,
non-wrapping y-axis) and row `y = 1`. -/
theorem tile_at_wrapping_semantics_witness :
    ((World.mk 3 2 [] true false).wrapping_x = true →
      (∀ x, (World.mk 3 2 [] true false).tile_at x 1
        = (World.mk 3 2 [] true false).tile_at (x % 3) 1) ∧
      (World.mk 3 2 [] true false).tile_at 3 1
        = (World.mk 3 2 [] true false).tile_at 0 1) ∧
    ((World.mk 3 2 [] true false).wrapping_x = false →
      (World.mk 3 2 [] true false).tile_at 3 1 = none) ∧
    (∀ a b, (World.mk 3 2 [] true false).tile_at_mut a b
      = (World.mk 3 2 [] true false).tile_at a b) :=
  tile_at_wrapping_semantics (World.mk 3 2 [] true false) 1 (by decide) (by decide)

/-- Every push keeps the pop/push counters balanced: `island_size` plus the
queue length stays equal to `ocean_size`. -/
theorem tryPush_count (g : Prop) [Decidable g] (c : Nat × Nat)
    (isW : Nat → Nat → Bool) (s : FloodState)
    (h : s.island_size + s.queue.length = s.ocean_size) :
    (tryPush g c isW s).island_size + (tryPush g c isW s).queue.length
      = (tryPush g c isW s).ocean_size := by
  unfold tryPush pushCell
  split
  · simp only [List.length_cons]
    omega
  · exact h

/-- The loop body restores the counter balance after a pop: if
`island_size + queue length + 1 = ocean_size` on entry (the `+ 1` being the
just-popped cell), equality holds again after the body. -/
theorem floodStep_count (width height : Nat) (isW : Nat → Nat → Bool)
    (x y : Nat) (s : FloodState)
    (h : s.island_size + s.queue.length + 1 = s.ocean_size) :
    (floodStep width height isW x y s).island_size
      + (floodStep width height isW x y s).queue.length
      = (floodStep width height isW x y s).ocean_size := by
  unfold floodStep
  apply tryPush_count
  apply tryPush_count
  apply tryPush_count
  apply tryPush_count
  show s.island_size + 1 + s.queue.length = s.ocean_size
  omega

/-- The counter balance `island_size + queue length = ocean_size` is a loop
invariant of the flood fill. -/
theorem floodLoop_count (width height : Nat) (isW : Nat → Nat → Bool) :
    ∀ (fuel : Nat) (s : FloodState),
    s.island_size + s.queue.length = s.ocean_size →
    (floodLoop width height isW fuel s).island_size
      + (floodLoop width height isW fuel s).queue.length
      = (floodLoop width height isW fuel s).ocean_size := by
  intro fuel
  induction fuel with
  | zero => intro s h; exact h
  | succ n ih =>
    intro s h
    unfold floodLoop
    split
    · exact h
    · next x y rest heq =>
        apply ih
        apply floodStep_count
        simp only
        rw [heq] at h
        simp at h
        omega

/-- Pushing a fresh in-range cell preserves well-formedness and pays 4 units
of the loop measure. -/
theorem pushCell_ok_measure (width height : Nat) (c : Nat × Nat)
    (s : FloodState) (hc : c.1 < width ∧ c.2 < height) (hmem : c ∉ s.visited)
    (hok : FloodOk width height s) :
    FloodOk width height (pushCell c s) ∧
    stateMeasure width height (pushCell c s) + 4 ≤ stateMeasure width height s := by
  obtain ⟨hqb, hsub⟩ := hok
  have hcr : c ∈ Finset.range width ×ˢ Finset.range height := by
    rw [Finset.mem_product, Finset.mem_range, Finset.mem_range]
    exact hc
  have hsub2 : insert c s.visited ⊆ Finset.range width ×ˢ Finset.range height :=
    Finset.insert_subset hcr hsub
  have hcard : (insert c s.visited).card = s.visited.card + 1 :=
    Finset.card_insert_of_not_mem hmem
  have hle : (insert c s.visited).card ≤ width * height := by
    calc (insert c s.visited).card
        ≤ (Finset.range width ×ˢ Finset.range height).card :=
          Finset.card_le_card hsub2
      _ = width * height := by
          rw [Finset.card_product, Finset.card_range, Finset.card_range]
  refine ⟨⟨?_, hsub2⟩, ?_⟩
  · intro d hd
    rcases List.mem_cons.mp hd with h1 | h1
    · exact h1 ▸ hc
    · exact hqb d h1
  · unfold stateMeasure pushCell
    simp only [List.length_cons]
    rw [hcard] at hle ⊢
    omega

/-- A guarded push preserves well-formedness and never increases the loop
measure. -/
theorem tryPush_ok_measure (width height : Nat) (g : Prop) [Decidable g]
    (c : Nat × Nat) (isW : Nat → Nat → Bool) (s : FloodState)
    (hok : FloodOk width height s) (hc : g → c.1 < width ∧ c.2 < height) :
    FloodOk width height (tryPush g c isW s) ∧
    stateMeasure width height (tryPush g c isW s) ≤ stateMeasure width height s := by
  unfold tryPush
  split
  · next hcond =>
      have h := pushCell_ok_measure width height c s (hc hcond.1) hcond.2.1 hok
      exact ⟨h.1, by omega⟩
  · exact ⟨hok, le_refl _⟩

/-- The loop body on an in-range popped cell preserves well-formedness and
never increases the measure. -/
theorem floodStep_ok_measure (width height : Nat) (isW : Nat → Nat → Bool)
    (x y : Nat) (s : FloodState) (hx : x < width) (hy : y < height)
    (hok : FloodOk width height s) :
    FloodOk width height (floodStep width height isW x y s) ∧
    stateMeasure width height (floodStep width height isW x y s)
      ≤ stateMeasure width height s := by
  unfold floodStep
  have h0 : FloodOk width height { s with island_size := s.island_size + 1 } := hok
  have hm0 : stateMeasure width height { s with island_size := s.island_size + 1 }
      = stateMeasure width height s := rfl
  have h1 := tryPush_ok_measure width height (0 < x) (x - 1, y) isW _ h0
    (fun _ => ⟨by omega, hy⟩)
  have h2 := tryPush_ok_measure width height (x < width - 1) (x + 1, y) isW _ h1.1
    (fun hg => ⟨by omega, hy⟩)
  have h3 := tryPush_ok_measure width height (0 < y) (x, y - 1) isW _ h2.1
    (fun _ => ⟨hx, by omega⟩)
  have h4 := tryPush_ok_measure width height (y < height - 1) (x, y + 1) isW _ h3.1
    (fun hg => ⟨hx, by omega⟩)
  refine ⟨h4.1, ?_⟩
  have e1 := h1.2
  have e2 := h2.2
  have e3 := h3.2
  have e4 := h4.2
  omega

/-- With fuel at least the loop measure, the flood fill drains its queue and
ends in a well-formed state. -/
theorem floodLoop_ok_drains (width height : Nat) (isW : Nat → Nat → Bool) :
    ∀ (fuel : Nat) (s : FloodState), FloodOk width height s →
    stateMeasure width height s ≤ fuel →
    (floodLoop width height isW fuel s).queue = [] ∧
    FloodOk width height (floodLoop width height isW fuel s) := by
  intro fuel
  induction fuel with
  | zero =>
    intro s hok hm
    have hlen : s.queue.length = 0 := by
      unfold stateMeasure at hm
      omega
    exact ⟨List.length_eq_zero.mp hlen, hok⟩
  | succ n ih =>
    intro s hok hm
    unfold floodLoop
    split
    · next heq => exact ⟨heq, hok⟩
    · next x y rest heq =>
        have hxy : x < width ∧ y < height := hok.1 (x, y) (by rw [heq]; simp)
        have hok1 : FloodOk width height { s with queue := rest } := by
          refine ⟨fun d hd => hok.1 d ?_, hok.2⟩
          rw [heq]
          exact List.mem_cons_of_mem _ hd
        have hm1 : stateMeasure width height { s with queue := rest } + 1
            = stateMeasure width height s := by
          unfold stateMeasure
          simp only
          rw [heq]
          simp only [List.length_cons]
          omega
        have hstep := floodStep_ok_measure width height isW x y
          { s with queue := rest } hxy.1 hxy.2 hok1
        exact ih _ hstep.1 (by omega)

/-- The seed state of each flood fill satisfies the counter balance, is
well-formed for in-range seeds, and fits in the fuel `floodFuel`. -/
theorem floodFillGo_id_aux (width height : Nat) :
    ∀ (l : List (Nat × Nat)) (vis : Finset (Nat × Nat)) (g : List (List Tile)),
    (∀ c ∈ l, c.1 < width ∧ c.2 < height) →
    vis ⊆ Finset.range width ×ˢ Finset.range height →
    floodFillGo width height l vis g = g := by
  intro l
  induction l with
  | nil => intro vis g _ _; rfl
  | cons c cs ih =>
    intro vis g hc hv
    have hcb : c.1 < width ∧ c.2 < height := hc c (by simp)
    have hcs : ∀ d ∈ cs, d.1 < width ∧ d.2 < height :=
      fun d hd => hc d (List.mem_cons_of_mem _ hd)
    unfold floodFillGo
    split
    · next hcond =>
        have hcr : c ∈ Finset.range width ×ˢ Finset.range height := by
          rw [Finset.mem_product, Finset.mem_range, Finset.mem_range]
          exact hcb
        have hok0 : FloodOk width height
            ⟨[c], insert c vis, 0, 1⟩ := by
          refine ⟨fun d hd => ?_, Finset.insert_subset hcr hv⟩
          rw [List.mem_singleton] at hd
          exact hd ▸ hcb
        have hm0 : stateMeasure width height ⟨[c], insert c vis, 0, 1⟩
            ≤ floodFuel width height := by
          unfold stateMeasure floodFuel
          simp only [List.length_singleton]
          omega
        have hdrain := floodLoop_ok_drains width height
          (fun x y => (tileAtD g y x).terrain.is_water)
          (floodFuel width height) ⟨[c], insert c vis, 0, 1⟩ hok0 hm0
        have hcnt := floodLoop_count width height
          (fun x y => (tileAtD g y x).terrain.is_water)
          (floodFuel width height) ⟨[c], insert c vis, 0, 1⟩ (by simp)
        rw [hdrain.1] at hcnt
        simp at hcnt
        rw [if_neg (by omega)]
        exact ih _ _ hcs hdrain.2.2
    · exact ih vis g hcs hv

/-- C10: the region-consolidation pass of strategy A is the identity on
every grid — each flood fill pops exactly as many cells as its reference
count (`island_size = ocean_size` when the queue empties), so the rewrite
condition `island_size < ocean_size` never fires and no terrain is ever
converted to Ocean by this pass. -/
theorem floodFillPass_identity (width height : Nat) (g : List (List Tile)) :
    floodFillPass width height g = g := by
  unfold floodFillPass
  apply floodFillGo_id_aux
  · intro c hc
    unfold gridCells at hc
    simp only [List.mem_flatMap, List.mem_map, List.mem_range] at hc
    obtain ⟨y, hy, x, hx, rfl⟩ := hc
    exact ⟨hx, hy⟩
  · exact Finset.empty_subset _

/-- On the field `heightsB`, any threshold of at least 2/5 classifies three
cells as water, and all four once the threshold exceeds the maximum. -/
theorem countWater_heightsB (t : Rat) (ht : 2/5 ≤ t) :
    countWater 2 2 heightsB t = if 1 < t then 4 else 3 := by
  have h0 : heightsB 0 0 < t := by
    rw [show heightsB 0 0 = 0 from rfl]
    linarith
  have h1 : heightsB 0 1 < t := by
    rw [show heightsB 0 1 = 1/100 from rfl]
    linarith
  have h2 : heightsB 1 0 < t := by
    rw [show heightsB 1 0 = 2/100 from rfl]
    linarith
  have hB : heightsB 1 1 = 1 := rfl
  unfold countWater
  rw [show gridCells 2 2 = [(0, 0), (1, 0), (0, 1), (1, 1)] from rfl]
  rcases lt_or_le 1 t with h4 | h4
  · rw [if_pos h4]
    have h3 : heightsB 1 1 < t := by rw [hB]; exact h4
    simp [List.filter_cons, h0, h1, h2, h3]
  · rw [if_neg (not_lt.mpr h4)]
    have h3 : ¬ heightsB 1 1 < t := by rw [hB]; exact not_lt.mpr h4
    simp [List.filter_cons, h0, h1, h2, h3]

/-- From any threshold of at least 2/5 the strategy-B adjustment loop on
`heightsB` with target 1/2 never converges: the realized water fraction is
at least 3/4, so `diff` stays above the 0.001 tolerance, and since `diff`
is an absolute value the threshold only ever increases. -/
theorem adjustLoop_heightsB_none :
    ∀ (fuel : Nat) (t : Rat), 2/5 ≤ t →
    adjustLoop 2 2 heightsB (1/2) fuel t = none := by
  intro fuel
  induction fuel with
  | zero =>
    intro t ht
    unfold adjustLoop
    rw [countWater_heightsB t ht]
    rcases lt_or_le 1 t with h4 | h4
    · rw [if_pos h4]
      rw [if_pos (by norm_num [abs_of_nonneg])]
    · rw [if_neg (not_lt.mpr h4)]
      rw [if_pos (by norm_num [abs_of_nonneg])]
  | succ n ih =>
    intro t ht
    unfold adjustLoop
    rw [countWater_heightsB t ht]
    rcases lt_or_le 1 t with h4 | h4
    · rw [if_pos h4]
      rw [if_pos (by norm_num [abs_of_nonneg]), if_pos (by norm_num [abs_of_nonneg])]
      exact ih (t + 1/10000) (by linarith)
    · rw [if_neg (not_lt.mpr h4)]
      rw [if_pos (by norm_num [abs_of_nonneg]), if_pos (by norm_num [abs_of_nonneg])]
      exact ih (t + 1/10000) (by linarith)

/-- C9: strategy B's threshold search has no iteration cap and need not
terminate. On the normalized 2×2 height field `heightsB` with
`water_percentage = 1/2` and initial sampled threshold 2/5 (legal: the
source samples it from `[0, 1 - water_percentage)`), the realized water
fraction is 3/4 at every reachable threshold — since `diff` is an absolute
value the threshold only ever moves up — so the `while diff.abs() > 0.001`
loop runs forever: no amount of fuel makes it return. -/
theorem adjustLoop_never_terminates :
    ∀ fuel : Nat, adjustLoop 2 2 heightsB (1/2) fuel (2/5) = none :=
  fun fuel => adjustLoop_heightsB_none fuel (2/5) (le_refl _)

/-- C1: `generate` does not always return a well-shaped `World` — on a
valid non-square configuration (width 2, height 1) whose overlay pass
triggers on the cell `(x, y) = (1, 0)` (here: that cell classifies as Swamp
and its feature value 2/5 exceeds the 3/10 threshold), the transposed write
`world[x][y] = world[1][0]` indexes past the single row and panics, so no
`World` is produced at all. -/
theorem generate_nonsquare_panics :
    generate ⟨2, 1, false, false, mkRat 1 2, 0, .Spread⟩
      (fun _ x => if x = 0 then mkRat 9 20 else mkRat 11 20)
      (fun _ _ => mkRat 2 5) = none := by
  decide

/-- C8: the feature-overlay pass writes the transposed cell. On a square
2×2 grid whose cell `(x, y) = (1, 0)` is Ocean with feature value 2/5 above
the 3/10 threshold (all other cells below every threshold), the rewrite to
Forest lands on `world[1][0]`, which is the cell `(x, y) = (0, 1)` (here
Desert): the Ocean cell keeps its terrain — the claim would have made it
Forest — and the Desert cell turns into Forest. -/
theorem overlay_writes_transposed_cell :
    overlayPass 2 2 (fun y x => if y = 0 ∧ x = 1 then mkRat 2 5 else 0)
      [[Tile.new .Forest .none Flags.empty, Tile.new .Ocean .none Flags.empty],
       [Tile.new .Desert .none Flags.empty, Tile.new .Forest .none Flags.empty]]
      = some
        [[Tile.new .Forest .none Flags.empty, Tile.new .Ocean .none Flags.empty],
         [Tile.new .Forest .none Flags.empty, Tile.new .Forest .none Flags.empty]] ∧
    (Tile.new Terrain.Ocean Special.none Flags.empty).terrain = .Ocean ∧
    (Tile.new Terrain.Forest Special.none Flags.empty).terrain = .Forest := by
  decide

end Freeciv
